import Mathlib

/-!
Shallow embedding of the `chengwenxi/ibc-rs` slice under verification:
the ICS-04 timeout handler (`modules/src/ics04_channel/handler/timeout.rs`),
the channel/packet event decoder (`modules/src/ics04_channel/events.rs`,
`modules/src/events.rs`), the client-state envelope
(`modules/src/ics02_client/client_state.rs`) and the relayer `start`
command (`relayer-cli/src/commands/start.rs`).

Rust `Result` is embedded as `Except`, `Option` as `Option`; a Rust panic
(`unwrap`, `assert!`, `unimplemented!`, out-of-bounds indexing) inside a
decoder is embedded as the `.error` branch of an `Except` carrying a
message, or as `none` for the panicking accessors of `IbcEvent`.
Machine integers (`u64`) are embedded as `Nat`; no arithmetic in the
modelled code can overflow at the values the theorems use, and none of the
embedded operations wrap.
-/

namespace Ibc

/-- Modelled from the spec: heights are pairs
`(revision_number, revision_height)` of `u64`, ordered lexicographically,
and a timeout height is "zero" when both components are zero
(`ics02_client/height.rs` is not under `src/`). -/
structure Height where
  revision_number : Nat
  revision_height : Nat
deriving DecidableEq, Repr

/-- Modelled from the spec: lexicographic order on the pair. -/
def Height.lt (a b : Height) : Prop :=
  a.revision_number < b.revision_number ∨
    (a.revision_number = b.revision_number ∧ a.revision_height < b.revision_height)

instance : LT Height := ⟨Height.lt⟩

instance (a b : Height) : Decidable (a < b) :=
  decidable_of_iff
    (a.revision_number < b.revision_number ∨
      (a.revision_number = b.revision_number ∧ a.revision_height < b.revision_height))
    Iff.rfl

/-- Modelled from the spec: non-strict lexicographic order. -/
def Height.le (a b : Height) : Prop := a < b ∨ a = b

instance : LE Height := ⟨Height.le⟩

instance (a b : Height) : Decidable (a ≤ b) :=
  decidable_of_iff (a < b ∨ a = b) Iff.rfl

/-- Modelled from the spec: a `timeout_height` of zero in both components
means "never time out by height". -/
def Height.isZero (h : Height) : Bool :=
  h.revision_number = 0 && h.revision_height = 0

/-- Modelled from the spec: `Height::default()` is the zero height. -/
def Height.default : Height := ⟨0, 0⟩

/-- Identifiers are validated strings; the core treats them as opaque but
comparable (validation lives in `ics24_host`, not under `src/`). -/
abbrev PortId := String

abbrev ChannelId := String

abbrev ConnectionId := String

abbrev ClientId := String

abbrev ChainId := String

/-- Embeds `ics04_channel::packet::Sequence`, a newtype over `u64`. -/
abbrev Sequence := Nat

/-- Embeds `ics04_channel::packet::Packet` (fields as used throughout `src/`). -/
structure Packet where
  sequence : Sequence
  source_port : PortId
  source_channel : ChannelId
  destination_port : PortId
  destination_channel : ChannelId
  data : List Nat
  timeout_height : Height
  timeout_timestamp : Nat
deriving DecidableEq, Repr

/-- Modelled from the spec / `Default` derive: all fields default
(`Packet::default()` in `extract_packet_and_write_ack_from_tx`). -/
def Packet.default : Packet :=
  { sequence := 0
    source_port := "defaultPort"
    source_channel := "defaultChannel"
    destination_port := "defaultPort"
    destination_channel := "defaultChannel"
    data := []
    timeout_height := Height.default
    timeout_timestamp := 0 }

/-- Modelled from the spec: channel states
`{Init, TryOpen, Open, Closed}` (`ics04_channel/channel.rs` is not under
`src/`). -/
inductive State where
  | Init
  | TryOpen
  | Open
  | Closed
deriving DecidableEq, Repr

/-- Modelled from the spec: channel ordering `{Unordered, Ordered}`. -/
inductive Order where
  | Unordered
  | Ordered
deriving DecidableEq, Repr

/-- Modelled from the spec: a channel counterparty is
`{port_id, channel_id?}`. -/
structure Counterparty where
  port_id : PortId
  channel_id : Option ChannelId
deriving DecidableEq, Repr

/-- Modelled from the spec: `ChannelEnd` is `{state; ordering;
counterparty; connection_hops (non-empty); version}`
(`ics04_channel/channel.rs` is not under `src/`). -/
structure ChannelEnd where
  state : State
  ordering : Order
  remote : Counterparty
  connection_hops : List ConnectionId
  version : String
deriving DecidableEq, Repr

/-- Embeds `ChannelEnd::state_matches` (modelled from the spec: equality on the
state). -/
def ChannelEnd.state_matches (ce : ChannelEnd) (s : State) : Bool :=
  ce.state = s

/-- Embeds `ChannelEnd::counterparty_matches` (modelled from the spec: equality on
the counterparty). -/
def ChannelEnd.counterparty_matches (ce : ChannelEnd) (c : Counterparty) : Bool :=
  ce.remote = c

/-- Embeds `ChannelEnd::order_matches` (modelled from the spec: equality on the
ordering). -/
def ChannelEnd.order_matches (ce : ChannelEnd) (o : Order) : Bool :=
  ce.ordering = o

/-- Embeds `channel_end.connection_hops()[0]`: the handler indexes hop 0; the spec
invariant makes `connection_hops` non-empty, so the Rust index panic cannot
fire and the embedding reads the head with a default. -/
def ChannelEnd.hop0 (ce : ChannelEnd) : ConnectionId :=
  ce.connection_hops.headD ""

/-- Modelled from the spec: the handler reads only the `client_id` of the
connection end resolved from the first hop
(`ics03_connection/connection.rs` is not under `src/`). -/
structure ConnectionEnd where
  client_id : ClientId
deriving DecidableEq, Repr

/-- Modelled from the spec: a consensus state exposes `timestamp()`, which
the handler calls fallibly (`consensus_state.timestamp()` returns a
`Result` mapped onto `ErrorInvalidConsensusState`). -/
structure ConsensusState where
  timestamp : Except String Nat
deriving Repr

/-- Modelled from the spec: proofs carry the height they were queried at
(`msg.proofs.height()`); the Merkle payload is consumed only by the
verification capabilities below. -/
structure Proofs where
  height : Height
deriving DecidableEq, Repr

/-- Embeds `ics04_channel::msgs::timeout::MsgTimeout`. -/
structure MsgTimeout where
  packet : Packet
  next_sequence_recv : Sequence
  proofs : Proofs
deriving Repr

/-- Embeds `ics04_channel::error::Kind`, restricted to the kinds the code under
`src/` raises; `NoPortCapability` and `PacketVerificationFailed` stand for
the error values produced by the (out-of-`src/`) capability and proof
verification calls that `process` propagates with `?`. -/
inductive Kind where
  | ChannelNotFound (port : PortId) (channel : ChannelId)
  | ChannelClosed (channel : ChannelId)
  | NoPortCapability (port : PortId)
  | InvalidPacketCounterparty (port : PortId) (channel : ChannelId)
  | MissingConnection (connection : ConnectionId)
  | MissingClientConsensusState (client : ClientId) (height : Height)
  | ErrorInvalidConsensusState (msg : String)
  | PacketTimeoutHeightNotReached (timeout_height : Height) (proof_height : Height)
  | PacketTimeoutTimestampNotReached (timeout_timestamp : Nat) (proof_timestamp : Nat)
  | PacketCommitmentNotFound (seq : Sequence)
  | IncorrectPacketCommitment (seq : Sequence)
  | InvalidPacketSequence (seq : Sequence) (next_sequence_recv : Sequence)
  | PacketVerificationFailed (msg : String)
deriving DecidableEq, Repr

/-- Embeds `ChannelReader`: the read-only ledger view consumed by the timeout
handler. `authenticated_capability` is embedded as its success bit;
`verify_next_sequence_recv` / `verify_packet_receipt_absence` live in
`ics04_channel/handler/verify.rs` (not under `src/`) and are modelled from
the spec as proof-verification capabilities of the reader, which `process`
invokes exactly where the source does. -/
structure ChannelReader where
  channel_end : PortId × ChannelId → Option ChannelEnd
  authenticated_capability : PortId → Bool
  connection_end : ConnectionId → Option ConnectionEnd
  client_consensus_state : ClientId × Height → Option ConsensusState
  get_packet_commitment : PortId × ChannelId × Sequence → Option (List Nat)
  hash : String → List Nat
  verify_next_sequence_recv : ClientId → Packet → Sequence → Proofs → Except String Unit
  verify_packet_receipt_absence : ClientId → Packet → Proofs → Except String Unit

/-- Embeds `TimeoutPacketResult` (`handler/timeout.rs`). -/
structure TimeoutPacketResult where
  port_id : PortId
  channel_id : ChannelId
  seq : Sequence
  channel : Option ChannelEnd
deriving DecidableEq, Repr

/-- Embeds `ics04_channel::packet::PacketResult`, restricted to the variant the
timeout handler produces (the defining module is not under `src/`). -/
inductive PacketResult where
  | Timeout (r : TimeoutPacketResult)
deriving DecidableEq, Repr

/-- Rust `u64` `Debug` formatting (decimal). -/
def debugFmtNat (n : Nat) : String := toString n

/-- Rust `Vec<u8>` `Debug` formatting: `[b0, b1, ...]`. -/
def debugFmtBytes (l : List Nat) : String :=
  "[" ++ String.intercalate ", " (l.map toString) ++ "]"

/-- Modelled from the spec: `Height`'s derived `Debug` formatting
(`ics02_client/height.rs` is not under `src/`); any injective rendering of
the two components serves, since the hash capability is opaque. -/
def debugFmtHeight (h : Height) : String :=
  "Height \x7b revision_number: " ++ toString h.revision_number ++
    ", revision_height: " ++ toString h.revision_height ++ " \x7d"

/-- The commitment pre-image the handler rebuilds:
`format!("{:?},{:?},{:?}", timeout_timestamp, timeout_height, data)`. -/
def timeoutCommitmentInput (p : Packet) : String :=
  debugFmtNat p.timeout_timestamp ++ "," ++ debugFmtHeight p.timeout_height ++
    "," ++ debugFmtBytes p.data

/-- Embeds `ics04_channel::events::Attributes`. -/
structure Attributes where
  height : Height
  port_id : PortId
  channel_id : Option ChannelId
  connection_id : ConnectionId
  counterparty_port_id : PortId
  counterparty_channel_id : Option ChannelId
deriving DecidableEq, Repr

/-- Embeds `Attributes::default()`; the identifier defaults come from
`ics24_host` (not under `src/`) and their concrete text is immaterial to
every theorem below, which compare against `Attributes.default` itself. -/
def Attributes.default : Attributes :=
  { height := Height.default
    port_id := "defaultPort"
    channel_id := none
    connection_id := "defaultConnection"
    counterparty_port_id := "defaultPort"
    counterparty_channel_id := none }

/-- Embeds `ics04_channel::events::OpenInit` (tuple struct over `Attributes`). -/
structure OpenInit where
  attributes : Attributes
deriving DecidableEq, Repr

/-- Embeds `ics04_channel::events::OpenTry`. -/
structure OpenTry where
  attributes : Attributes
deriving DecidableEq, Repr

/-- Embeds `ics04_channel::events::OpenAck`. -/
structure OpenAck where
  attributes : Attributes
deriving DecidableEq, Repr

/-- Embeds `ics04_channel::events::OpenConfirm`. -/
structure OpenConfirm where
  attributes : Attributes
deriving DecidableEq, Repr

/-- Embeds `ics04_channel::events::CloseInit`. -/
structure CloseInit where
  attributes : Attributes
deriving DecidableEq, Repr

/-- Embeds `ics04_channel::events::CloseConfirm`. -/
structure CloseConfirm where
  attributes : Attributes
deriving DecidableEq, Repr

/-- Embeds `ics04_channel::events::SendPacket`. -/
structure SendPacket where
  height : Height
  packet : Packet
deriving DecidableEq, Repr

/-- Embeds `ics04_channel::events::ReceivePacket`. -/
structure ReceivePacket where
  height : Height
  packet : Packet
deriving DecidableEq, Repr

/-- Embeds `ics04_channel::events::WriteAcknowledgement`. -/
structure WriteAcknowledgement where
  height : Height
  packet : Packet
  ack : List Nat
deriving DecidableEq, Repr

/-- Embeds `ics04_channel::events::AcknowledgePacket`. -/
structure AcknowledgePacket where
  height : Height
  packet : Packet
deriving DecidableEq, Repr

/-- Embeds `ics04_channel::events::TimeoutPacket`. -/
structure TimeoutPacket where
  height : Height
  packet : Packet
deriving DecidableEq, Repr

/-- Embeds `ics04_channel::events::TimeoutOnClosePacket`. -/
structure TimeoutOnClosePacket where
  height : Height
  packet : Packet
deriving DecidableEq, Repr

/-- Modelled from the spec: `NewBlock(height)` control event
(`ics02_client/events.rs` is not under `src/`). -/
structure NewBlock where
  height : Height
deriving DecidableEq, Repr

/-- Modelled from the spec: client event payloads carry the producing
height (`ics02_client/events.rs` is not under `src/`). -/
structure ClientEventAttributes where
  height : Height
deriving DecidableEq, Repr

/-- Modelled from the spec: connection event payloads carry the producing
height (`ics03_connection/events.rs` is not under `src/`). -/
structure ConnectionEventAttributes where
  height : Height
deriving DecidableEq, Repr

/-- Embeds `events::IbcEvent` (`modules/src/events.rs`). -/
inductive IbcEvent where
  | NewBlock (ev : NewBlock)
  | CreateClient (ev : ClientEventAttributes)
  | UpdateClient (ev : ClientEventAttributes)
  | UpgradeClient (ev : ClientEventAttributes)
  | ClientMisbehaviour (ev : ClientEventAttributes)
  | OpenInitConnection (ev : ConnectionEventAttributes)
  | OpenTryConnection (ev : ConnectionEventAttributes)
  | OpenAckConnection (ev : ConnectionEventAttributes)
  | OpenConfirmConnection (ev : ConnectionEventAttributes)
  | OpenInitChannel (ev : OpenInit)
  | OpenTryChannel (ev : OpenTry)
  | OpenAckChannel (ev : OpenAck)
  | OpenConfirmChannel (ev : OpenConfirm)
  | CloseInitChannel (ev : CloseInit)
  | CloseConfirmChannel (ev : CloseConfirm)
  | SendPacket (ev : SendPacket)
  | ReceivePacket (ev : ReceivePacket)
  | WriteAcknowledgement (ev : WriteAcknowledgement)
  | AcknowledgePacket (ev : AcknowledgePacket)
  | TimeoutPacket (ev : TimeoutPacket)
  | TimeoutOnClosePacket (ev : TimeoutOnClosePacket)
  | Empty (msg : String)
  | ChainError (msg : String)
deriving DecidableEq, Repr

/-- Embeds `HandlerOutput`: result, emitted events and log lines, accumulated in
emission order by the append-only builder. -/
structure HandlerOutput (R : Type) where
  result : R
  events : List IbcEvent
  log : List String
deriving Repr

/-- Continuation of `process` after the timeout-condition step: the
commitment lookup and comparison, the ordered/unordered verification
branch and the event/log emission (`handler/timeout.rs` lines 84-141).
Split out of `process` purely so the theorems can name the handler's
later stage; `process` below is its only caller. The source's
`output.log(...)`, `output.emit(...)`, `output.with_result(...)` builder
calls are embedded as the final record; `?`-propagation is the `.error`
branch. -/
def process_after_timeout_checks (ctx : ChannelReader) (msg : MsgTimeout)
    (source_channel_end : ChannelEnd) (client_id : ClientId) :
    Except Kind (HandlerOutput PacketResult) :=
  let packet := msg.packet
  match ctx.get_packet_commitment
      (packet.source_port, packet.source_channel, packet.sequence) with
  | none => .error (.PacketCommitmentNotFound packet.sequence)
  | some packet_commitment =>
    let input := timeoutCommitmentInput packet
    if packet_commitment ≠ ctx.hash input then
      .error (.IncorrectPacketCommitment packet.sequence)
    else
      let emit (result : PacketResult) : HandlerOutput PacketResult :=
        { result := result
          events := [IbcEvent.TimeoutPacket
            { height := Height.default, packet := packet }]
          log := ["success: packet timeout "] }
      if source_channel_end.order_matches Order.Ordered then
        if packet.sequence < msg.next_sequence_recv then
          .error (.InvalidPacketSequence packet.sequence msg.next_sequence_recv)
        else
          match ctx.verify_next_sequence_recv client_id packet
              msg.next_sequence_recv msg.proofs with
          | .error e => .error (.PacketVerificationFailed e)
          | .ok _ =>
            .ok (emit (.Timeout
              { port_id := packet.source_port
                channel_id := packet.source_channel
                seq := packet.sequence
                channel := some { source_channel_end with state := State.Closed } }))
      else
        match ctx.verify_packet_receipt_absence client_id packet msg.proofs with
        | .error e => .error (.PacketVerificationFailed e)
        | .ok _ =>
          .ok (emit (.Timeout
            { port_id := packet.source_port
              channel_id := packet.source_channel
              seq := packet.sequence
              channel := none }))

/-- Embeds `process` (`ics04_channel/handler/timeout.rs`): the lookup,
capability, counterparty, connection, consensus-state and
timeout-condition steps, continuing into
`process_after_timeout_checks`. -/
def process (ctx : ChannelReader) (msg : MsgTimeout) :
    Except Kind (HandlerOutput PacketResult) :=
  let packet := msg.packet
  match ctx.channel_end (packet.source_port, packet.source_channel) with
  | none => .error (.ChannelNotFound packet.source_port packet.source_channel)
  | some source_channel_end =>
    if ¬ source_channel_end.state_matches State.Open then
      .error (.ChannelClosed packet.source_channel)
    else if ¬ ctx.authenticated_capability packet.source_port then
      .error (.NoPortCapability packet.source_port)
    else
      let counterparty : Counterparty :=
        ⟨packet.destination_port, some packet.destination_channel⟩
      if ¬ source_channel_end.counterparty_matches counterparty then
        .error (.InvalidPacketCounterparty packet.destination_port
          packet.destination_channel)
      else
        match ctx.connection_end source_channel_end.hop0 with
        | none => .error (.MissingConnection source_channel_end.hop0)
        | some connection_end =>
          let client_id := connection_end.client_id
          let proof_height := msg.proofs.height
          let packet_height := packet.timeout_height
          if ¬ packet.timeout_height.isZero ∧ proof_height < packet_height then
            .error (.PacketTimeoutHeightNotReached packet.timeout_height proof_height)
          else
            match ctx.client_consensus_state (client_id, proof_height) with
            | none => .error (.MissingClientConsensusState client_id proof_height)
            | some consensus_state =>
              match consensus_state.timestamp with
              | .error e => .error (.ErrorInvalidConsensusState e)
              | .ok proof_timestamp =>
                let packet_timestamp := packet.timeout_timestamp
                if packet.timeout_timestamp ≠ 0 ∧ proof_timestamp < packet_timestamp then
                  .error (.PacketTimeoutTimestampNotReached packet_timestamp proof_timestamp)
                else
                  process_after_timeout_checks ctx msg source_channel_end client_id

/-- A raw ledger event as delivered by the chain:
`tendermint::abci::Event { type_str, attributes }`. -/
structure AbciEvent where
  type_str : String
  attributes : List (String × String)
deriving DecidableEq, Repr

/-- Embeds `value.as_bytes()`: the byte rendering of an attribute value (UTF-8;
it coincides with the code-point list on the ASCII values used here). -/
def strBytes (s : String) : List Nat :=
  s.data.map Char.toNat

/-- Splits a character list at every occurrence of `c` (the embedding of
`str::split` used by the modelled parsers; structurally recursive so it
evaluates inside the kernel). -/
def splitOnChar (c : Char) : List Char → List (List Char)
  | [] => [[]]
  | x :: xs =>
    let r := splitOnChar c xs
    if x = c then [] :: r
    else
      match r with
      | [] => [[x]]
      | y :: ys => (x :: y) :: ys

/-- Modelled from the spec: decimal `u64` parsing (`u64::from_str` of the
standard library, outside the source); `none` on an empty or non-digit
string. -/
def parseDigits (l : List Char) : Option Nat :=
  if l ≠ [] ∧ l.all (fun c => c.isDigit) then
    some (l.foldl (fun n c => n * 10 + (c.toNat - 48)) 0)
  else none

/-- Embeds `value.parse::<u64>()` via `parseDigits`. -/
def parse_u64 (s : String) : Option Nat := parseDigits s.data

/-- Modelled from the spec: `Height`'s string form is
`"revision_number-revision_height"` (its `TryFrom<&str>` lives in
`ics02_client/height.rs`, not under `src/`). -/
def parseHeight (s : String) : Except String Height :=
  match splitOnChar '-' s.data with
  | [a, b] =>
    match parseDigits a, parseDigits b with
    | some rn, some rh => .ok ⟨rn, rh⟩
    | _, _ => .error "invalid height"
  | _ => .error "invalid height"

/-- One step of the `for tag in &event.attributes` loop of
`extract_attributes_from_tx`. Identifier parsing (`value.parse()`) is
validation-free in the embedding (`ics24_host` is outside `src/`), so the
`unwrap` cannot fire and `.parse().ok()` is always `some`. Unrecognised
keys fall through unchanged (`_ => {}`). -/
def applyChannelAttr (attr : Attributes) (tag : String × String) : Attributes :=
  let key := tag.1
  let value := tag.2
  if key = "port_id" then { attr with port_id := value }
  else if key = "channel_id" then { attr with channel_id := some value }
  else if key = "connection_id" then { attr with connection_id := value }
  else if key = "counterparty_port_id" then { attr with counterparty_port_id := value }
  else if key = "counterparty_channel_id" then
    { attr with counterparty_channel_id := some value }
  else attr

/-- Embeds `extract_attributes_from_tx` (`ics04_channel/events.rs`): start from
`Attributes::default()` and fold the attribute list. -/
def extract_attributes_from_tx (event : AbciEvent) : Attributes :=
  event.attributes.foldl applyChannelAttr Attributes.default

/-- One step of the loop of `extract_packet_and_write_ack_from_tx`; the
`.error` branch is the `unwrap` panic on an unparsable `packet_sequence`
or `packet_timeout_height` value. Unrecognised keys fall through. -/
def applyPacketAttr (st : Packet × Option (List Nat)) (tag : String × String) :
    Except String (Packet × Option (List Nat)) :=
  let (packet, write_ack) := st
  let key := tag.1
  let value := tag.2
  if key = "packet_src_port" then .ok ({ packet with source_port := value }, write_ack)
  else if key = "packet_src_channel" then
    .ok ({ packet with source_channel := value }, write_ack)
  else if key = "packet_dst_port" then
    .ok ({ packet with destination_port := value }, write_ack)
  else if key = "packet_dst_channel" then
    .ok ({ packet with destination_channel := value }, write_ack)
  else if key = "packet_sequence" then
    match parse_u64 value with
    | some n => .ok ({ packet with sequence := n }, write_ack)
    | none => .error "invalid packet_sequence"
  else if key = "packet_timeout_height" then
    match parseHeight value with
    | .ok h => .ok ({ packet with timeout_height := h }, write_ack)
    | .error e => .error e
  else if key = "packet_data" then
    .ok ({ packet with data := strBytes value }, write_ack)
  else if key = "packet_ack" then
    .ok (packet, some (strBytes value))
  else .ok st

/-- Embeds `extract_packet_and_write_ack_from_tx` (`ics04_channel/events.rs`):
start from `Packet::default()` and `write_ack = None`, fold the attribute
list. -/
def extract_packet_and_write_ack_from_tx (event : AbciEvent) :
    Except String (Packet × Option (List Nat)) :=
  event.attributes.foldlM applyPacketAttr (Packet.default, none)

/-- Embeds `ics04_channel::events::try_from_tx`. The `.error` branch embeds a
Rust panic: a failed attribute-value `unwrap`, a failed
`assert!(write_ack.is_none())`, or the `write_ack.unwrap()` of the
`write_acknowledgement` arm. Unrecognised type strings yield
`.ok none`. -/
def ChannelEvents.try_from_tx (event : AbciEvent) : Except String (Option IbcEvent) :=
  match event.type_str with
  | "channel_open_init" =>
    .ok (some (.OpenInitChannel ⟨extract_attributes_from_tx event⟩))
  | "channel_open_try" =>
    .ok (some (.OpenTryChannel ⟨extract_attributes_from_tx event⟩))
  | "channel_open_ack" =>
    .ok (some (.OpenAckChannel ⟨extract_attributes_from_tx event⟩))
  | "channel_open_confirm" =>
    .ok (some (.OpenConfirmChannel ⟨extract_attributes_from_tx event⟩))
  | "channel_close_init" =>
    .ok (some (.CloseInitChannel ⟨extract_attributes_from_tx event⟩))
  | "channel_close_confirm" =>
    .ok (some (.CloseConfirmChannel ⟨extract_attributes_from_tx event⟩))
  | "send_packet" => do
    let (packet, write_ack) ← extract_packet_and_write_ack_from_tx event
    if write_ack.isSome then .error "assertion failed: write_ack.is_none()"
    else .ok (some (.SendPacket { height := Height.default, packet }))
  | "write_acknowledgement" => do
    let (packet, write_ack) ← extract_packet_and_write_ack_from_tx event
    match write_ack with
    | some ack => .ok (some (.WriteAcknowledgement { height := Height.default, packet, ack }))
    | none => .error "called Option::unwrap() on a None value"
  | "acknowledge_packet" => do
    let (packet, write_ack) ← extract_packet_and_write_ack_from_tx event
    if write_ack.isSome then .error "assertion failed: write_ack.is_none()"
    else .ok (some (.AcknowledgePacket { height := Height.default, packet }))
  | "timeout_packet" => do
    let (packet, write_ack) ← extract_packet_and_write_ack_from_tx event
    if write_ack.isSome then .error "assertion failed: write_ack.is_none()"
    else .ok (some (.TimeoutPacket { height := Height.default, packet }))
  | _ => .ok none

/-- Modelled from the spec: the client-level decoder recognises the client
event taxonomy (`CreateClient`, `UpdateClient`, `UpgradeClient`,
`ClientMisbehaviour`) by type string and yields `None` otherwise
(`ics02_client/events.rs` is not under `src/`). -/
def ClientEvents.try_from_tx (event : AbciEvent) : Option IbcEvent :=
  match event.type_str with
  | "create_client" => some (.CreateClient ⟨Height.default⟩)
  | "update_client" => some (.UpdateClient ⟨Height.default⟩)
  | "upgrade_client" => some (.UpgradeClient ⟨Height.default⟩)
  | "client_misbehaviour" => some (.ClientMisbehaviour ⟨Height.default⟩)
  | _ => none

/-- Modelled from the spec: the connection-level decoder recognises the
connection handshake event taxonomy by type string and yields `None`
otherwise (`ics03_connection/events.rs` is not under `src/`). -/
def ConnectionEvents.try_from_tx (event : AbciEvent) : Option IbcEvent :=
  match event.type_str with
  | "connection_open_init" => some (.OpenInitConnection ⟨Height.default⟩)
  | "connection_open_try" => some (.OpenTryConnection ⟨Height.default⟩)
  | "connection_open_ack" => some (.OpenAckConnection ⟨Height.default⟩)
  | "connection_open_confirm" => some (.OpenConfirmConnection ⟨Height.default⟩)
  | _ => none

/-- Embeds `IbcEvent::height` (`modules/src/events.rs`): `none` embeds the
`unimplemented!()` panic of the catch-all arm (`UpgradeClient`,
`TimeoutOnClosePacket`, `Empty`, `ChainError`). -/
def IbcEvent.height : IbcEvent → Option Height
  | .NewBlock bl => some bl.height
  | .CreateClient ev => some ev.height
  | .UpdateClient ev => some ev.height
  | .ClientMisbehaviour ev => some ev.height
  | .OpenInitConnection ev => some ev.height
  | .OpenTryConnection ev => some ev.height
  | .OpenAckConnection ev => some ev.height
  | .OpenConfirmConnection ev => some ev.height
  | .OpenInitChannel ev => some ev.attributes.height
  | .OpenTryChannel ev => some ev.attributes.height
  | .OpenAckChannel ev => some ev.attributes.height
  | .OpenConfirmChannel ev => some ev.attributes.height
  | .CloseInitChannel ev => some ev.attributes.height
  | .CloseConfirmChannel ev => some ev.attributes.height
  | .SendPacket ev => some ev.height
  | .ReceivePacket ev => some ev.height
  | .WriteAcknowledgement ev => some ev.height
  | .AcknowledgePacket ev => some ev.height
  | .TimeoutPacket ev => some ev.height
  | _ => none

/-- Embeds `IbcEvent::set_height` (`modules/src/events.rs`): `none` embeds the
`unimplemented!()` panic of the catch-all arm (`TimeoutOnClosePacket`,
`Empty`, `ChainError`). -/
def IbcEvent.set_height : IbcEvent → Height → Option IbcEvent
  | .NewBlock ev, height => some (.NewBlock { ev with height := height })
  | .CreateClient ev, height => some (.CreateClient { ev with height := height })
  | .UpdateClient ev, height => some (.UpdateClient { ev with height := height })
  | .UpgradeClient ev, height => some (.UpgradeClient { ev with height := height })
  | .ClientMisbehaviour ev, height =>
    some (.ClientMisbehaviour { ev with height := height })
  | .OpenInitConnection ev, height =>
    some (.OpenInitConnection { ev with height := height })
  | .OpenTryConnection ev, height =>
    some (.OpenTryConnection { ev with height := height })
  | .OpenAckConnection ev, height =>
    some (.OpenAckConnection { ev with height := height })
  | .OpenConfirmConnection ev, height =>
    some (.OpenConfirmConnection { ev with height := height })
  | .OpenInitChannel ev, height =>
    some (.OpenInitChannel ⟨{ ev.attributes with height := height }⟩)
  | .OpenTryChannel ev, height =>
    some (.OpenTryChannel ⟨{ ev.attributes with height := height }⟩)
  | .OpenAckChannel ev, height =>
    some (.OpenAckChannel ⟨{ ev.attributes with height := height }⟩)
  | .OpenConfirmChannel ev, height =>
    some (.OpenConfirmChannel ⟨{ ev.attributes with height := height }⟩)
  | .CloseInitChannel ev, height =>
    some (.CloseInitChannel ⟨{ ev.attributes with height := height }⟩)
  | .CloseConfirmChannel ev, height =>
    some (.CloseConfirmChannel ⟨{ ev.attributes with height := height }⟩)
  | .SendPacket ev, height => some (.SendPacket { ev with height := height })
  | .ReceivePacket ev, height => some (.ReceivePacket { ev with height := height })
  | .WriteAcknowledgement ev, height =>
    some (.WriteAcknowledgement { ev with height := height })
  | .AcknowledgePacket ev, height =>
    some (.AcknowledgePacket { ev with height := height })
  | .TimeoutPacket ev, height => some (.TimeoutPacket { ev with height := height })
  | _, _ => none

/-- Embeds `events::from_tx_response_event` (`modules/src/events.rs`): first hit
among the client, connection and channel decoders, stamped with the block
height; the `.error` branch embeds a decoder panic. -/
def from_tx_response_event (height : Height) (event : AbciEvent) :
    Except String (Option IbcEvent) :=
  match ClientEvents.try_from_tx event with
  | some client_res =>
    match client_res.set_height height with
    | some e => .ok (some e)
    | none => .error "unimplemented"
  | none =>
    match ConnectionEvents.try_from_tx event with
    | some conn_res =>
      match conn_res.set_height height with
      | some e => .ok (some e)
      | none => .error "unimplemented"
    | none => do
      match ← ChannelEvents.try_from_tx event with
      | some chan_res =>
        match chan_res.set_height height with
        | some e => .ok (some e)
        | none => .error "unimplemented"
      | none => .ok none

/-- Embeds `events::RawObject` (`modules/src/events.rs`); the `HashMap` of
attribute lists is embedded as an association list looked up by key. -/
structure RawObject where
  height : Height
  action : String
  idx : Nat
  events : List (String × List String)
deriving Repr

/-- Embeds `obj.events.get(&key)` on the embedded association list. -/
def RawObject.get (obj : RawObject) (key : String) : Option (List String) :=
  (obj.events.find? (fun kv => kv.1 = key)).map (fun kv => kv.2)

/-- The `p_attribute!` macro: build `"{action}.{key}"`, look it up
(`.ok_or(nb)?`), index by `obj.idx` (the `.error` on a missing index
embeds the Rust slice-index panic) and hand back the raw value for the
caller's `parse()?`. -/
def p_attribute_raw (obj : RawObject) (b : String) : Except String String :=
  let nb := obj.action ++ "." ++ b
  match obj.get nb with
  | none => .error nb
  | some vs =>
    match vs.get? obj.idx with
    | none => .error "index out of bounds"
    | some v => .ok v

/-- Embeds `p_attribute!` followed by `parse::<u64>()?`. -/
def p_attribute_u64 (obj : RawObject) (b : String) : Except String Nat := do
  let v ← p_attribute_raw obj b
  match parse_u64 v with
  | some n => .ok n
  | none => .error "invalid digit found in string"

/-- Embeds `TryFrom<RawObject> for Packet` (`ics04_channel/events.rs`): note
`data` is set to the empty vector; the `packet_data` attribute is not read
here. -/
def Packet.try_from (obj : RawObject) : Except String Packet := do
  let height_str ← p_attribute_raw obj "packet_timeout_height"
  let sequence ← p_attribute_u64 obj "packet_sequence"
  let source_port ← p_attribute_raw obj "packet_src_port"
  let source_channel ← p_attribute_raw obj "packet_src_channel"
  let destination_port ← p_attribute_raw obj "packet_dst_port"
  let destination_channel ← p_attribute_raw obj "packet_dst_channel"
  let timeout_height ← parseHeight height_str
  let timeout_timestamp ← p_attribute_u64 obj "packet_timeout_timestamp"
  .ok { sequence, source_port, source_channel, destination_port,
        destination_channel, data := [], timeout_height, timeout_timestamp }

/-- Embeds `TryFrom<RawObject> for SendPacket`: reads `packet_data` and
overwrites the packet's empty `data` with its bytes. -/
def SendPacket.try_from (obj : RawObject) : Except String SendPacket := do
  let height := obj.height
  let data_str ← p_attribute_raw obj "packet_data"
  let packet ← Packet.try_from obj
  .ok { height, packet := { packet with data := strBytes data_str } }

/-- Embeds `TryFrom<RawObject> for ReceivePacket`: reads `packet_data` and
overwrites the packet's empty `data` with its bytes. -/
def ReceivePacket.try_from (obj : RawObject) : Except String ReceivePacket := do
  let height := obj.height
  let data_str ← p_attribute_raw obj "packet_data"
  let packet ← Packet.try_from obj
  .ok { height, packet := { packet with data := strBytes data_str } }

/-- Embeds `TryFrom<RawObject> for WriteAcknowledgement`: reads `packet_data`
and `packet_ack`, overwriting the packet's `data`. -/
def WriteAcknowledgement.try_from (obj : RawObject) :
    Except String WriteAcknowledgement := do
  let height := obj.height
  let data_str ← p_attribute_raw obj "packet_data"
  let ack_str ← p_attribute_raw obj "packet_ack"
  let packet ← Packet.try_from obj
  .ok { height, packet := { packet with data := strBytes data_str },
        ack := strBytes ack_str }

/-- Embeds `TryFrom<RawObject> for AcknowledgePacket`: the packet comes straight
from `Packet::try_from`, so its `data` stays empty. -/
def AcknowledgePacket.try_from (obj : RawObject) :
    Except String AcknowledgePacket := do
  let height := obj.height
  let packet ← Packet.try_from obj
  .ok { height, packet }

/-- Embeds `TryFrom<RawObject> for TimeoutPacket`: the packet comes straight
from `Packet::try_from`, so its `data` stays empty. -/
def TimeoutPacket.try_from (obj : RawObject) : Except String TimeoutPacket := do
  let packet ← Packet.try_from obj
  .ok { height := obj.height, packet }

/-- The `(type_url, bytes)` envelope `prost_types::Any`. -/
structure Any where
  type_url : String
  value : List Nat
deriving DecidableEq, Repr

/-- Modelled from the spec: the Tendermint client state carries the
capability set `{chain_id, client_type, latest_height, is_frozen}`
(`ics07_tendermint/client_state.rs` is not under `src/`). -/
structure TmClientState where
  chain_id : ChainId
  latest_height : Height
  frozen : Bool
deriving DecidableEq, Repr

/-- Modelled from the spec: the test `Mock` client state wraps a header
height (`mock/client_state.rs` is not under `src/`). -/
structure MockClientState where
  header_height : Height
deriving DecidableEq, Repr

/-- Embeds `ics02_client::client_state::AnyClientState`. -/
inductive AnyClientState where
  | Tendermint (s : TmClientState)
  | Mock (s : MockClientState)
deriving DecidableEq, Repr

/-- Embeds `ics02_client::error::Kind`, restricted to the kinds raised by the
envelope conversion. -/
inductive ClientKind where
  | EmptyClientStateResponse
  | UnknownClientStateType (type_url : String)
  | InvalidRawClientState
deriving DecidableEq, Repr

/-- Modelled from the spec: `encode_vec` for the Tendermint client state —
the spec only requires serialization to round-trip through the envelope,
so any injective byte encoding of the state serves (the Protobuf codec is
not under `src/`). -/
def tmEncodeVec (s : TmClientState) : List Nat :=
  s.latest_height.revision_number :: s.latest_height.revision_height ::
    (if s.frozen then 1 else 0) :: strBytes s.chain_id

/-- Modelled from the spec: `decode_vec` for the Tendermint client state,
inverse of `tmEncodeVec`; malformed bytes are a decode error. -/
def tmDecodeVec (l : List Nat) : Except String TmClientState :=
  match l with
  | rn :: rh :: f :: rest =>
    if f ≤ 1 then
      .ok { chain_id := String.mk (rest.map Char.ofNat)
            latest_height := ⟨rn, rh⟩
            frozen := f = 1 }
    else .error "invalid frozen flag"
  | _ => .error "truncated client state"

/-- Modelled from the spec: `encode_vec` for the mock client state. -/
def mockEncodeVec (s : MockClientState) : List Nat :=
  [s.header_height.revision_number, s.header_height.revision_height]

/-- Modelled from the spec: `decode_vec` for the mock client state,
inverse of `mockEncodeVec`. -/
def mockDecodeVec (l : List Nat) : Except String MockClientState :=
  match l with
  | [rn, rh] => .ok { header_height := ⟨rn, rh⟩ }
  | _ => .error "truncated mock client state"

/-- Embeds `TENDERMINT_CLIENT_STATE_TYPE_URL`. -/
def TENDERMINT_CLIENT_STATE_TYPE_URL : String :=
  "/ibc.lightclients.tendermint.v1.ClientState"

/-- Embeds `MOCK_CLIENT_STATE_TYPE_URL`. -/
def MOCK_CLIENT_STATE_TYPE_URL : String := "/ibc.mock.ClientState"

/-- Embeds `TryFrom<Any> for AnyClientState`
(`ics02_client/client_state.rs`). -/
def AnyClientState.try_from (raw : Any) : Except ClientKind AnyClientState :=
  if raw.type_url = "" then .error .EmptyClientStateResponse
  else if raw.type_url = TENDERMINT_CLIENT_STATE_TYPE_URL then
    match tmDecodeVec raw.value with
    | .ok s => .ok (.Tendermint s)
    | .error _ => .error .InvalidRawClientState
  else if raw.type_url = MOCK_CLIENT_STATE_TYPE_URL then
    match mockDecodeVec raw.value with
    | .ok s => .ok (.Mock s)
    | .error _ => .error .InvalidRawClientState
  else .error (.UnknownClientStateType raw.type_url)

/-- Embeds `From<AnyClientState> for Any` (`ics02_client/client_state.rs`). -/
def AnyClientState.into_any : AnyClientState → Any
  | .Tendermint value =>
    { type_url := TENDERMINT_CLIENT_STATE_TYPE_URL, value := tmEncodeVec value }
  | .Mock value =>
    { type_url := MOCK_CLIENT_STATE_TYPE_URL, value := mockEncodeVec value }

/-- Embeds `StartCmd` (`relayer-cli/src/commands/start.rs`): two required chain
ids and the optional source port / channel flags. -/
structure StartCmd where
  src_chain_id : ChainId
  dst_chain_id : ChainId
  src_port_id : Option PortId
  src_channel_id : Option ChannelId
deriving DecidableEq, Repr

/-- Embeds `ibc_relayer::link::LinkParameters`. -/
structure LinkParameters where
  src_port_id : PortId
  src_channel_id : ChannelId
deriving DecidableEq, Repr

/-- Modelled from the spec: the connection entry of a configured
connection path (only its `delay` is read by `start`). -/
structure ConnectionCfg where
  delay : Nat
deriving DecidableEq, Repr

/-- Modelled from the spec: the channel path entry of a configured
connection path (only its `ordering` is read by `start`, and the path is
forwarded whole to `relay_on_new_link`). -/
structure PathCfg where
  ordering : Order
deriving DecidableEq, Repr

/-- Modelled from the spec: exit status of the process. `Output::success`
exits zero; `Output::error(d).exit()` prints the diagnostic `d` and exits
non-zero (`conclude.rs` is not under `src/`). -/
inductive ExitStatus where
  | success
  | failure (diagnostic : String)
deriving DecidableEq, Repr

/-- A relay entry point invoked by `start` (recorded so that theorems can
speak about which relay ran and on what). -/
inductive RelayInvocation where
  | channel_relay (params : LinkParameters)
  | relay_on_new_link (delay : Nat) (ordering : Order) (path : PathCfg)
deriving DecidableEq, Repr

/-- Modelled from the spec: the external collaborators of `start` —
runtime spawning, the two relay entry points
(`ibc_relayer::relay::channel_relay` / `relay_on_new_link`) and the
configuration search `config.first_matching_path`, none of which are under
`src/`. -/
structure CliEnv where
  spawn : ChainId → ChainId → Except String Unit
  channel_relay : LinkParameters → Except String Unit
  first_matching_path : ChainId → ChainId → Option (ConnectionCfg × PathCfg)
  relay_on_new_link : Nat → Order → PathCfg → Except String Unit

/-- Embeds `StartCmd::run` (`relayer-cli/src/commands/start.rs`): spawn the two
chain runtimes, then dispatch on `(src_port_id, src_channel_id)`; the
returned list records which relay entry points were invoked. -/
def StartCmd.run (env : CliEnv) (cmd : StartCmd) : ExitStatus × List RelayInvocation :=
  match env.spawn cmd.src_chain_id cmd.dst_chain_id with
  | .error e => (.failure e, [])
  | .ok _ =>
    match cmd.src_port_id, cmd.src_channel_id with
    | some src_port_id, some src_channel_id =>
      let params : LinkParameters := ⟨src_port_id, src_channel_id⟩
      (match env.channel_relay params with
        | .ok _ => .success
        | .error e => .failure e,
       [.channel_relay params])
    | none, none =>
      match env.first_matching_path cmd.src_chain_id cmd.dst_chain_id with
      | some (connection, path) =>
        (match env.relay_on_new_link connection.delay path.ordering path with
          | .ok _ => .success
          | .error e => .failure e,
         [.relay_on_new_link connection.delay path.ordering path])
      | none =>
        (.failure ("No connections configured for " ++ reprStr cmd), [])
    | _, _ =>
      (.failure ("Invalid parameters, either both port and channel must be specified or none: "
        ++ reprStr cmd), [])

/-- Classifier for the two timeout-condition errors of the handler (used
to state when the timeout-condition step passes). -/
def failsTimeoutCondition : Except Kind (HandlerOutput PacketResult) → Bool
  | .error (Kind.PacketTimeoutHeightNotReached _ _) => true
  | .error (Kind.PacketTimeoutTimestampNotReached _ _) => true
  | _ => false

/-- Concrete packet fixture: sequence 1, enabled timeout height `(0,1)`,
enabled timeout timestamp `10`. -/
def testPacket : Packet :=
  { sequence := 1
    source_port := "transfer"
    source_channel := "channel-0"
    destination_port := "transfer"
    destination_channel := "channel-1"
    data := [1]
    timeout_height := ⟨0, 1⟩
    timeout_timestamp := 10 }

/-- Concrete open channel end whose counterparty matches `testPacket`'s
destination. -/
def testChannelEnd (o : Order) : ChannelEnd :=
  { state := State.Open
    ordering := o
    remote := ⟨"transfer", some "channel-1"⟩
    connection_hops := ["connection-0"]
    version := "ics20" }

/-- Concrete reader fixture: the channel, connection, consensus state
(timestamp `5` at height `(0,2)`) and a matching stored commitment for
`testPacket`; both verification capabilities succeed. -/
def testReader (o : Order) : ChannelReader :=
  { channel_end := fun pc =>
      if pc = ("transfer", "channel-0") then some (testChannelEnd o) else none
    authenticated_capability := fun _ => true
    connection_end := fun c =>
      if c = "connection-0" then some ⟨"07-tendermint-0"⟩ else none
    client_consensus_state := fun ch =>
      if ch = ("07-tendermint-0", (⟨0, 2⟩ : Height)) then some ⟨.ok 5⟩ else none
    get_packet_commitment := fun k =>
      if k = ("transfer", "channel-0", 1) then
        some (strBytes (timeoutCommitmentInput testPacket))
      else none
    hash := strBytes
    verify_next_sequence_recv := fun _ _ _ _ => .ok ()
    verify_packet_receipt_absence := fun _ _ _ => .ok () }

/-- Concrete timeout message fixture for `testPacket`, proven at height
`(0,2)`. -/
def testMsg : MsgTimeout :=
  { packet := testPacket, next_sequence_recv := 1, proofs := ⟨⟨0, 2⟩⟩ }

/-- Variant of `testPacket` whose timestamp timeout is disabled, so that
the timeout condition is satisfied at proof height `(0,2)`. -/
def testPacketOk : Packet := { testPacket with timeout_timestamp := 0 }

/-- Reader fixture storing the commitment of `testPacketOk`. -/
def testReaderOk (o : Order) : ChannelReader :=
  { testReader o with
    get_packet_commitment := fun k =>
      if k = ("transfer", "channel-0", 1) then
        some (strBytes (timeoutCommitmentInput testPacketOk))
      else none }

/-- Timeout message fixture for `testPacketOk`. -/
def testMsgOk : MsgTimeout :=
  { packet := testPacketOk, next_sequence_recv := 1, proofs := ⟨⟨0, 2⟩⟩ }

/-- The attribute keys `extract_attributes_from_tx` recognises. -/
def recognizedChannelAttrKeys : List String :=
  ["port_id", "channel_id", "connection_id", "counterparty_port_id",
   "counterparty_channel_id"]

/-- The attribute keys `extract_packet_and_write_ack_from_tx`
recognises. -/
def recognizedPacketAttrKeys : List String :=
  ["packet_src_port", "packet_src_channel", "packet_dst_port",
   "packet_dst_channel", "packet_sequence", "packet_timeout_height",
   "packet_data", "packet_ack"]

/-- The channel/packet event type strings `try_from_tx` recognises. -/
def recognizedChannelEventTypes : List String :=
  ["channel_open_init", "channel_open_try", "channel_open_ack",
   "channel_open_confirm", "channel_close_init", "channel_close_confirm",
   "send_packet", "write_acknowledgement", "acknowledge_packet",
   "timeout_packet"]

/-- All event type strings recognised by the three decoders consulted by
`from_tx_response_event` (client and connection sets modelled from the
spec's taxonomy). -/
def recognizedEventTypes : List String :=
  ["create_client", "update_client", "upgrade_client", "client_misbehaviour",
   "connection_open_init", "connection_open_try", "connection_open_ack",
   "connection_open_confirm"] ++ recognizedChannelEventTypes

/-- Concrete `RawObject` fixture carrying every packet attribute under the
given action, at index 0 and height `(0,3)`. -/
def testRawObjectFor (action : String) : RawObject :=
  { height := ⟨0, 3⟩
    action := action
    idx := 0
    events :=
      [(action ++ ".packet_timeout_height", ["0-5"]),
       (action ++ ".packet_sequence", ["1"]),
       (action ++ ".packet_src_port", ["pa"]),
       (action ++ ".packet_src_channel", ["ca"]),
       (action ++ ".packet_dst_port", ["pb"]),
       (action ++ ".packet_dst_channel", ["cb"]),
       (action ++ ".packet_timeout_timestamp", ["7"]),
       (action ++ ".packet_data", ["hi"]),
       (action ++ ".packet_ack", ["ok"])] }

/-- Concrete Tendermint client state fixture. -/
def testTmClientState : TmClientState :=
  { chain_id := "chain-A", latest_height := ⟨1, 7⟩, frozen := false }

/-- Concrete CLI environment fixture in which spawning and both relay
entry points succeed and configuration search finds one path. -/
def testCliEnv : CliEnv :=
  { spawn := fun _ _ => .ok ()
    channel_relay := fun _ => .ok ()
    first_matching_path := fun _ _ => some (⟨3⟩, ⟨Order.Unordered⟩)
    relay_on_new_link := fun _ _ _ => .ok () }

/-- Classifier: the `IbcEvent` variants on which `IbcEvent::height` hits
`unimplemented!()`. -/
def heightPanicVariant : IbcEvent → Bool
  | .UpgradeClient _ | .TimeoutOnClosePacket _ | .Empty _ | .ChainError _ => true
  | _ => false

/-- Classifier: the `IbcEvent` variants on which `IbcEvent::set_height`
hits `unimplemented!()`. -/
def setHeightPanicVariant : IbcEvent → Bool
  | .TimeoutOnClosePacket _ | .Empty _ | .ChainError _ => true
  | _ => false

theorem Height.le_iff_not_lt (a b : Height) : a ≤ b ↔ ¬ b < a := by
  constructor
  · rintro (h | rfl) hc
    · rcases h with h | ⟨he, h⟩ <;> rcases hc with hc | ⟨hce, hc⟩ <;> omega
    · rcases hc with hc | ⟨hce, hc⟩ <;> omega
  · intro h
    by_cases hn : a.revision_number < b.revision_number
    · exact Or.inl (Or.inl hn)
    · by_cases he : a.revision_number = b.revision_number
      · by_cases hh : a.revision_height < b.revision_height
        · exact Or.inl (Or.inr ⟨he, hh⟩)
        · refine Or.inr ?_
          have : a.revision_height = b.revision_height := by
            rcases Nat.lt_trichotomy a.revision_height b.revision_height with h1 | h1 | h1
            · exact absurd h1 hh
            · exact h1
            · exact absurd (Or.inr ⟨he.symm, h1⟩) h
          cases a; cases b
          simp_all
      · exact absurd (Or.inl (by omega)) h

theorem failsTimeoutCondition_after_checks (ctx : ChannelReader) (msg : MsgTimeout)
    (ce : ChannelEnd) (cid : ClientId) :
    failsTimeoutCondition (process_after_timeout_checks ctx msg ce cid) = false := by
  unfold process_after_timeout_checks
  dsimp only
  repeat' split
  all_goals rfl

theorem process_reduces_to_timeout_checks (ctx : ChannelReader) (msg : MsgTimeout)
    (ce : ChannelEnd) (conn : ConnectionEnd) (cs : ConsensusState) (pts : Nat)
    (hch : ctx.channel_end (msg.packet.source_port, msg.packet.source_channel) = some ce)
    (hopen : ce.state = State.Open)
    (hcap : ctx.authenticated_capability msg.packet.source_port = true)
    (hcp : ce.remote = ⟨msg.packet.destination_port, some msg.packet.destination_channel⟩)
    (hconn : ctx.connection_end ce.hop0 = some conn)
    (hcs : ctx.client_consensus_state (conn.client_id, msg.proofs.height) = some cs)
    (hts : cs.timestamp = .ok pts) :
    process ctx msg =
      if ¬ msg.packet.timeout_height.isZero ∧ msg.proofs.height < msg.packet.timeout_height then
        .error (.PacketTimeoutHeightNotReached msg.packet.timeout_height msg.proofs.height)
      else if msg.packet.timeout_timestamp ≠ 0 ∧ pts < msg.packet.timeout_timestamp then
        .error (.PacketTimeoutTimestampNotReached msg.packet.timeout_timestamp pts)
      else process_after_timeout_checks ctx msg ce conn.client_id := by
  have h1 : ce.state_matches State.Open = true := by
    simp [ChannelEnd.state_matches, hopen]
  have h2 : ce.counterparty_matches
      ⟨msg.packet.destination_port, some msg.packet.destination_channel⟩ = true := by
    simp [ChannelEnd.counterparty_matches, hcp]
  unfold process
  dsimp only
  rw [hch]
  dsimp only
  rw [h1, h2, hcap, hconn]
  dsimp only
  rw [hcs]
  dsimp only
  rw [hts]
  simp

/-- C1, counterexample. The claim says the timeout is accepted iff
(`timeout_height ≠ 0 ∧ timeout_height ≤ proofs.height`) OR
(`timeout_timestamp ≠ 0 ∧ timeout_timestamp ≤ consensus timestamp`). At
this concrete reader and message every earlier check passes and the
height disjunct of the OR holds (`(0,1) ≤ (0,2)`, nonzero), so the claim
says the timeout is accepted — yet `process` rejects it with
`PacketTimeoutTimestampNotReached(10, 5)` because the enabled timestamp
`10` has not reached the consensus timestamp `5`. -/
theorem timeout_or_condition_refuted :
    (testReader Order.Unordered).channel_end ("transfer", "channel-0") =
      some (testChannelEnd Order.Unordered) ∧
    (testChannelEnd Order.Unordered).state = State.Open ∧
    (testReader Order.Unordered).authenticated_capability "transfer" = true ∧
    (testChannelEnd Order.Unordered).remote = ⟨"transfer", some "channel-1"⟩ ∧
    (testReader Order.Unordered).connection_end (testChannelEnd Order.Unordered).hop0 =
      some ⟨"07-tendermint-0"⟩ ∧
    (¬ testPacket.timeout_height.isZero = true ∧
      testPacket.timeout_height ≤ testMsg.proofs.height) ∧
    process (testReader Order.Unordered) testMsg =
      .error (.PacketTimeoutTimestampNotReached 10 5) := by
  refine ⟨rfl, rfl, rfl, rfl, rfl, ⟨by decide, by decide⟩, ?_⟩
  rfl

/-- C1, amended: with the channel, capability, counterparty, connection
and consensus-state checks passing, the timeout-condition step of
`process` passes iff (`timeout_height = 0 ∨ timeout_height ≤
proofs.height`) AND (`timeout_timestamp = 0 ∨ timeout_timestamp ≤
consensus timestamp`) — each enabled deadline must have been reached; an
enabled unreached height fails `PacketTimeoutHeightNotReached` and
otherwise an enabled unreached timestamp fails
`PacketTimeoutTimestampNotReached`. -/
theorem timeout_condition_is_conjunction (ctx : ChannelReader) (msg : MsgTimeout)
    (ce : ChannelEnd) (conn : ConnectionEnd) (cs : ConsensusState) (pts : Nat)
    (hch : ctx.channel_end (msg.packet.source_port, msg.packet.source_channel) = some ce)
    (hopen : ce.state = State.Open)
    (hcap : ctx.authenticated_capability msg.packet.source_port = true)
    (hcp : ce.remote = ⟨msg.packet.destination_port, some msg.packet.destination_channel⟩)
    (hconn : ctx.connection_end ce.hop0 = some conn)
    (hcs : ctx.client_consensus_state (conn.client_id, msg.proofs.height) = some cs)
    (hts : cs.timestamp = .ok pts) :
    (failsTimeoutCondition (process ctx msg) = false ↔
      ((msg.packet.timeout_height.isZero = true ∨
          msg.packet.timeout_height ≤ msg.proofs.height) ∧
        (msg.packet.timeout_timestamp = 0 ∨ msg.packet.timeout_timestamp ≤ pts))) ∧
    ((¬ msg.packet.timeout_height.isZero = true ∧
        msg.proofs.height < msg.packet.timeout_height) →
      process ctx msg =
        .error (.PacketTimeoutHeightNotReached msg.packet.timeout_height msg.proofs.height)) ∧
    (((msg.packet.timeout_height.isZero = true ∨
        msg.packet.timeout_height ≤ msg.proofs.height) ∧
       msg.packet.timeout_timestamp ≠ 0 ∧ pts < msg.packet.timeout_timestamp) →
      process ctx msg =
        .error (.PacketTimeoutTimestampNotReached msg.packet.timeout_timestamp pts)) := by
  have hred := process_reduces_to_timeout_checks ctx msg ce conn cs pts
    hch hopen hcap hcp hconn hcs hts
  have hheight_pass : ∀ {h H : Height}, (h.isZero = true ∨ h ≤ H) →
      ¬ (¬ h.isZero = true ∧ H < h) := by
    rintro h H (hz | hle) ⟨hnz, hlt⟩
    · exact hnz hz
    · exact (Height.le_iff_not_lt h H).mp hle hlt
  refine ⟨?_, ?_, ?_⟩
  · rw [hred]
    by_cases hA : ¬ msg.packet.timeout_height.isZero = true ∧
        msg.proofs.height < msg.packet.timeout_height
    · rw [if_pos hA]
      simp only [failsTimeoutCondition]
      constructor
      · intro hfalse; cases hfalse
      · rintro ⟨hc1, _⟩
        exact absurd hA (by exact fun h => hheight_pass hc1 h)
    · rw [if_neg hA]
      by_cases hB : msg.packet.timeout_timestamp ≠ 0 ∧ pts < msg.packet.timeout_timestamp
      · rw [if_pos hB]
        simp only [failsTimeoutCondition]
        constructor
        · intro hfalse; cases hfalse
        · rintro ⟨_, h0 | hle⟩
          · exact absurd h0 hB.1
          · omega
      · rw [if_neg hB, failsTimeoutCondition_after_checks]
        simp only [true_iff]
        push_neg at hA hB
        constructor
        · by_cases hz : msg.packet.timeout_height.isZero = true
          · exact Or.inl hz
          · exact Or.inr ((Height.le_iff_not_lt _ _).mpr (hA hz))
        · by_cases h0 : msg.packet.timeout_timestamp = 0
          · exact Or.inl h0
          · exact Or.inr (hB h0)
  · intro hA
    rw [hred, if_pos hA]
  · rintro ⟨hc1, hne, hlt⟩
    rw [hred, if_neg (hheight_pass hc1), if_pos ⟨hne, hlt⟩]

/-- Witness for `timeout_condition_is_conjunction` at the concrete
fixture reader and message. -/
theorem timeout_condition_is_conjunction_witness :
    failsTimeoutCondition (process (testReader Order.Unordered) testMsg) = false ↔
      ((testMsg.packet.timeout_height.isZero = true ∨
          testMsg.packet.timeout_height ≤ testMsg.proofs.height) ∧
        (testMsg.packet.timeout_timestamp = 0 ∨ testMsg.packet.timeout_timestamp ≤ 5)) :=
  (timeout_condition_is_conjunction (testReader Order.Unordered) testMsg
    (testChannelEnd Order.Unordered) ⟨"07-tendermint-0"⟩ ⟨.ok 5⟩ 5
    rfl rfl rfl rfl rfl rfl rfl).1

theorem process_reduces_after_checks (ctx : ChannelReader) (msg : MsgTimeout)
    (ce : ChannelEnd) (conn : ConnectionEnd) (cs : ConsensusState) (pts : Nat)
    (hch : ctx.channel_end (msg.packet.source_port, msg.packet.source_channel) = some ce)
    (hopen : ce.state = State.Open)
    (hcap : ctx.authenticated_capability msg.packet.source_port = true)
    (hcp : ce.remote = ⟨msg.packet.destination_port, some msg.packet.destination_channel⟩)
    (hconn : ctx.connection_end ce.hop0 = some conn)
    (hcs : ctx.client_consensus_state (conn.client_id, msg.proofs.height) = some cs)
    (hts : cs.timestamp = .ok pts)
    (hh : msg.packet.timeout_height.isZero = true ∨
      msg.packet.timeout_height ≤ msg.proofs.height)
    (ht : msg.packet.timeout_timestamp = 0 ∨ msg.packet.timeout_timestamp ≤ pts) :
    process ctx msg = process_after_timeout_checks ctx msg ce conn.client_id := by
  rw [process_reduces_to_timeout_checks ctx msg ce conn cs pts
    hch hopen hcap hcp hconn hcs hts]
  rw [if_neg, if_neg]
  · rintro ⟨hne, hlt⟩
    rcases ht with h0 | hle
    · exact hne h0
    · omega
  · rintro ⟨hnz, hlt⟩
    rcases hh with hz | hle
    · exact hnz hz
    · exact (Height.le_iff_not_lt _ _).mp hle hlt

/-- C3: on an Ordered source channel, with every earlier check of the
timeout handler passing (including the timeout condition and the
commitment match), a sequence below `next_sequence_recv` fails
`InvalidPacketSequence`, and otherwise a verified
`verify_next_sequence_recv` proof yields `PacketResult::Timeout` whose
`channel` field is `Some` of the source channel end with its state set to
`Closed`. -/
theorem ordered_timeout_closes_channel (ctx : ChannelReader) (msg : MsgTimeout)
    (ce : ChannelEnd) (conn : ConnectionEnd) (cs : ConsensusState) (pts : Nat)
    (hch : ctx.channel_end (msg.packet.source_port, msg.packet.source_channel) = some ce)
    (hopen : ce.state = State.Open)
    (hord : ce.ordering = Order.Ordered)
    (hcap : ctx.authenticated_capability msg.packet.source_port = true)
    (hcp : ce.remote = ⟨msg.packet.destination_port, some msg.packet.destination_channel⟩)
    (hconn : ctx.connection_end ce.hop0 = some conn)
    (hcs : ctx.client_consensus_state (conn.client_id, msg.proofs.height) = some cs)
    (hts : cs.timestamp = .ok pts)
    (hh : msg.packet.timeout_height.isZero = true ∨
      msg.packet.timeout_height ≤ msg.proofs.height)
    (ht : msg.packet.timeout_timestamp = 0 ∨ msg.packet.timeout_timestamp ≤ pts)
    (hcm : ctx.get_packet_commitment
        (msg.packet.source_port, msg.packet.source_channel, msg.packet.sequence) =
      some (ctx.hash (timeoutCommitmentInput msg.packet))) :
    (msg.packet.sequence < msg.next_sequence_recv →
      process ctx msg =
        .error (.InvalidPacketSequence msg.packet.sequence msg.next_sequence_recv)) ∧
    (¬ msg.packet.sequence < msg.next_sequence_recv →
      ctx.verify_next_sequence_recv conn.client_id msg.packet
          msg.next_sequence_recv msg.proofs = .ok () →
      process ctx msg = .ok
        { result := .Timeout
            { port_id := msg.packet.source_port
              channel_id := msg.packet.source_channel
              seq := msg.packet.sequence
              channel := some { ce with state := State.Closed } }
          events := [IbcEvent.TimeoutPacket
            { height := Height.default, packet := msg.packet }]
          log := ["success: packet timeout "] }) := by
  have hred := process_reduces_after_checks ctx msg ce conn cs pts
    hch hopen hcap hcp hconn hcs hts hh ht
  have hom : ce.order_matches Order.Ordered = true := by
    simp [ChannelEnd.order_matches, hord]
  rw [hred]
  unfold process_after_timeout_checks
  dsimp only
  rw [hcm]
  dsimp only
  rw [if_neg (by simp), hom, if_pos rfl]
  constructor
  · intro hlt
    rw [if_pos (by simpa using hlt)]
  · intro hge hver
    rw [if_neg (by simpa using hge), hver]

/-- Witness for `ordered_timeout_closes_channel`: the Ordered fixture
reader and message, sequence 1 against `next_sequence_recv = 1`. -/
theorem ordered_timeout_closes_channel_witness :
    process (testReaderOk Order.Ordered) testMsgOk = .ok
      { result := .Timeout
          { port_id := "transfer"
            channel_id := "channel-0"
            seq := 1
            channel := some { testChannelEnd Order.Ordered with state := State.Closed } }
        events := [IbcEvent.TimeoutPacket
          { height := Height.default, packet := testPacketOk }]
        log := ["success: packet timeout "] } :=
  (ordered_timeout_closes_channel (testReaderOk Order.Ordered) testMsgOk
      (testChannelEnd Order.Ordered) ⟨"07-tendermint-0"⟩ ⟨.ok 5⟩ 5
      rfl rfl rfl rfl rfl rfl rfl rfl (by decide) (by decide) rfl).2
    (by decide) rfl

/-- C4: with every check before the commitment step passing, `process`
succeeds only when a packet commitment is stored for
`(source_port, source_channel, sequence)` and equals, byte for byte, the
reader's hash of `(timeout_timestamp, timeout_height, data)`; an absent
commitment fails `PacketCommitmentNotFound` and a mismatched one fails
`IncorrectPacketCommitment`. -/
theorem timeout_commitment_byte_check (ctx : ChannelReader) (msg : MsgTimeout)
    (ce : ChannelEnd) (conn : ConnectionEnd) (cs : ConsensusState) (pts : Nat)
    (hch : ctx.channel_end (msg.packet.source_port, msg.packet.source_channel) = some ce)
    (hopen : ce.state = State.Open)
    (hcap : ctx.authenticated_capability msg.packet.source_port = true)
    (hcp : ce.remote = ⟨msg.packet.destination_port, some msg.packet.destination_channel⟩)
    (hconn : ctx.connection_end ce.hop0 = some conn)
    (hcs : ctx.client_consensus_state (conn.client_id, msg.proofs.height) = some cs)
    (hts : cs.timestamp = .ok pts)
    (hh : msg.packet.timeout_height.isZero = true ∨
      msg.packet.timeout_height ≤ msg.proofs.height)
    (ht : msg.packet.timeout_timestamp = 0 ∨ msg.packet.timeout_timestamp ≤ pts) :
    (∀ out, process ctx msg = .ok out →
      ∃ c, ctx.get_packet_commitment
          (msg.packet.source_port, msg.packet.source_channel, msg.packet.sequence) =
          some c ∧ c = ctx.hash (timeoutCommitmentInput msg.packet)) ∧
    (ctx.get_packet_commitment
        (msg.packet.source_port, msg.packet.source_channel, msg.packet.sequence) = none →
      process ctx msg = .error (.PacketCommitmentNotFound msg.packet.sequence)) ∧
    (∀ c, ctx.get_packet_commitment
        (msg.packet.source_port, msg.packet.source_channel, msg.packet.sequence) =
        some c →
      c ≠ ctx.hash (timeoutCommitmentInput msg.packet) →
      process ctx msg = .error (.IncorrectPacketCommitment msg.packet.sequence)) := by
  have hred := process_reduces_after_checks ctx msg ce conn cs pts
    hch hopen hcap hcp hconn hcs hts hh ht
  refine ⟨?_, ?_, ?_⟩
  · intro out hok
    rw [hred] at hok
    unfold process_after_timeout_checks at hok
    dsimp only at hok
    cases hget : ctx.get_packet_commitment
        (msg.packet.source_port, msg.packet.source_channel, msg.packet.sequence) with
    | none => rw [hget] at hok; simp at hok
    | some c =>
      rw [hget] at hok
      dsimp only at hok
      by_cases hne : c ≠ ctx.hash (timeoutCommitmentInput msg.packet)
      · rw [if_pos hne] at hok; simp at hok
      · push_neg at hne
        exact ⟨c, rfl, hne⟩
  · intro hget
    rw [hred]
    unfold process_after_timeout_checks
    dsimp only
    rw [hget]
  · intro c hget hne
    rw [hred]
    unfold process_after_timeout_checks
    dsimp only
    rw [hget]
    dsimp only
    rw [if_pos hne]

/-- Witness for `timeout_commitment_byte_check`: the Unordered fixture
with the matching stored commitment; `process` succeeds and the stored
commitment is the reader's hash of the packet's commitment input. -/
theorem timeout_commitment_byte_check_witness :
    ∃ c, (testReaderOk Order.Unordered).get_packet_commitment
        ("transfer", "channel-0", 1) = some c ∧
      c = (testReaderOk Order.Unordered).hash (timeoutCommitmentInput testPacketOk) :=
  (timeout_commitment_byte_check (testReaderOk Order.Unordered) testMsgOk
      (testChannelEnd Order.Unordered) ⟨"07-tendermint-0"⟩ ⟨.ok 5⟩ 5
      rfl rfl rfl rfl rfl rfl rfl (by decide) (by decide)).1
    { result := .Timeout
        { port_id := "transfer", channel_id := "channel-0", seq := 1, channel := none }
      events := [IbcEvent.TimeoutPacket
        { height := Height.default, packet := testPacketOk }]
      log := ["success: packet timeout "] }
    rfl

/-- C6: with an Open Unordered source channel and every check passing —
connection on the first hop, port capability, consensus state at
`proofs.height`, timeout condition, matching stored commitment — and a
verified receipt-absence proof, `process` returns `PacketResult::Timeout`
carrying the packet's source port, source channel and sequence with
`channel = None`, emits exactly the one `TimeoutPacket` event carrying
the packet, and logs the line `"success: packet timeout "` (which
contains the phrase `success: packet timeout`). -/
theorem unordered_timeout_happy_path (ctx : ChannelReader) (msg : MsgTimeout)
    (ce : ChannelEnd) (conn : ConnectionEnd) (cs : ConsensusState) (pts : Nat)
    (hch : ctx.channel_end (msg.packet.source_port, msg.packet.source_channel) = some ce)
    (hopen : ce.state = State.Open)
    (hunord : ce.ordering = Order.Unordered)
    (hcap : ctx.authenticated_capability msg.packet.source_port = true)
    (hcp : ce.remote = ⟨msg.packet.destination_port, some msg.packet.destination_channel⟩)
    (hconn : ctx.connection_end ce.hop0 = some conn)
    (hcs : ctx.client_consensus_state (conn.client_id, msg.proofs.height) = some cs)
    (hts : cs.timestamp = .ok pts)
    (hh : msg.packet.timeout_height.isZero = true ∨
      msg.packet.timeout_height ≤ msg.proofs.height)
    (ht : msg.packet.timeout_timestamp = 0 ∨ msg.packet.timeout_timestamp ≤ pts)
    (hcm : ctx.get_packet_commitment
        (msg.packet.source_port, msg.packet.source_channel, msg.packet.sequence) =
      some (ctx.hash (timeoutCommitmentInput msg.packet)))
    (hver : ctx.verify_packet_receipt_absence conn.client_id msg.packet
      msg.proofs = .ok ()) :
    process ctx msg = .ok
      { result := .Timeout
          { port_id := msg.packet.source_port
            channel_id := msg.packet.source_channel
            seq := msg.packet.sequence
            channel := none }
        events := [IbcEvent.TimeoutPacket
          { height := Height.default, packet := msg.packet }]
        log := ["success: packet timeout "] } := by
  have hred := process_reduces_after_checks ctx msg ce conn cs pts
    hch hopen hcap hcp hconn hcs hts hh ht
  have hom : ce.order_matches Order.Ordered = false := by
    simp [ChannelEnd.order_matches, hunord]
  rw [hred]
  unfold process_after_timeout_checks
  dsimp only
  rw [hcm]
  dsimp only
  rw [if_neg (by simp), hom, if_neg (by simp), hver]

/-- Witness for `unordered_timeout_happy_path` at the Unordered fixture
reader and message. -/
theorem unordered_timeout_happy_path_witness :
    process (testReaderOk Order.Unordered) testMsgOk = .ok
      { result := .Timeout
          { port_id := "transfer", channel_id := "channel-0", seq := 1, channel := none }
        events := [IbcEvent.TimeoutPacket
          { height := Height.default, packet := testPacketOk }]
        log := ["success: packet timeout "] } :=
  unordered_timeout_happy_path (testReaderOk Order.Unordered) testMsgOk
    (testChannelEnd Order.Unordered) ⟨"07-tendermint-0"⟩ ⟨.ok 5⟩ 5
    rfl rfl rfl rfl rfl rfl rfl rfl (by decide) (by decide) rfl rfl

/-- C2, failing input: a `channel_open_init` raw event with NO attributes
at all. Every mandatory attribute is absent, yet `try_from_tx` yields
`Some(OpenInitChannel(Attributes::default()))` — the missing fields are
silently defaulted instead of producing a decode error (the decoder has
no error value to return for a missing key; its whole error surface is
the panic branch). -/
theorem missing_attributes_silently_default :
    ChannelEvents.try_from_tx ⟨"channel_open_init", []⟩ =
      .ok (some (.OpenInitChannel ⟨Attributes.default⟩)) := rfl

theorem tm_decode_encode (s : TmClientState) : tmDecodeVec (tmEncodeVec s) = .ok s := by
  obtain ⟨cid, ⟨rn, rh⟩, fr⟩ := s
  obtain ⟨cdata⟩ := cid
  have hid : Char.ofNat ∘ Char.toNat = id := funext fun c => Char.ofNat_toNat c
  cases fr <;>
    simp [tmEncodeVec, tmDecodeVec, strBytes, List.map_map, hid]

/-- C5: decoding the `(type_url, bytes)` envelope fails with
`EmptyClientStateResponse` on an empty `type_url`, fails with
`UnknownClientStateType(type_url)` on an unrecognised one, and for every
Tendermint client state, encoding to the envelope and decoding back
yields the original state. -/
theorem client_state_envelope_roundtrip :
    (∀ v : List Nat,
      AnyClientState.try_from ⟨"", v⟩ = .error .EmptyClientStateResponse) ∧
    (∀ (url : String) (v : List Nat), url ≠ "" →
      url ≠ TENDERMINT_CLIENT_STATE_TYPE_URL → url ≠ MOCK_CLIENT_STATE_TYPE_URL →
      AnyClientState.try_from ⟨url, v⟩ = .error (.UnknownClientStateType url)) ∧
    (∀ s : TmClientState,
      AnyClientState.try_from (AnyClientState.into_any (.Tendermint s)) =
        .ok (.Tendermint s)) := by
  refine ⟨fun v => rfl, ?_, ?_⟩
  · intro url v h0 h1 h2
    unfold AnyClientState.try_from
    rw [if_neg h0, if_neg h1, if_neg h2]
  · intro s
    unfold AnyClientState.into_any AnyClientState.try_from
    dsimp only
    rw [if_neg (by decide), if_pos rfl, tm_decode_encode]

/-- Witness for `client_state_envelope_roundtrip`: the unknown-URL branch
at a concrete URL and the round-trip at the concrete fixture state. -/
theorem client_state_envelope_roundtrip_witness :
    AnyClientState.try_from ⟨"/ibc.bogus.ClientState", [0]⟩ =
      .error (.UnknownClientStateType "/ibc.bogus.ClientState") ∧
    AnyClientState.try_from (AnyClientState.into_any (.Tendermint testTmClientState)) =
      .ok (.Tendermint testTmClientState) :=
  ⟨client_state_envelope_roundtrip.2.1 "/ibc.bogus.ClientState" [0]
      (by decide) (by decide) (by decide),
    client_state_envelope_roundtrip.2.2 testTmClientState⟩

theorem applyChannelAttr_unrecognized (attr : Attributes) (k v : String)
    (hk : k ∉ recognizedChannelAttrKeys) : applyChannelAttr attr (k, v) = attr := by
  simp [recognizedChannelAttrKeys] at hk
  obtain ⟨h1, h2, h3, h4, h5⟩ := hk
  simp [applyChannelAttr, h1, h2, h3, h4, h5]

theorem applyPacketAttr_unrecognized (st : Packet × Option (List Nat)) (k v : String)
    (hk : k ∉ recognizedPacketAttrKeys) : applyPacketAttr st (k, v) = .ok st := by
  obtain ⟨p, w⟩ := st
  simp [recognizedPacketAttrKeys] at hk
  obtain ⟨h1, h2, h3, h4, h5, h6, h7, h8⟩ := hk
  simp [applyPacketAttr, h1, h2, h3, h4, h5, h6, h7, h8]

theorem clientEvents_unknown_type (ev : AbciEvent)
    (h : ev.type_str ∉ recognizedEventTypes) : ClientEvents.try_from_tx ev = none := by
  simp [recognizedEventTypes, recognizedChannelEventTypes] at h
  unfold ClientEvents.try_from_tx
  split <;> simp_all

theorem connectionEvents_unknown_type (ev : AbciEvent)
    (h : ev.type_str ∉ recognizedEventTypes) : ConnectionEvents.try_from_tx ev = none := by
  simp [recognizedEventTypes, recognizedChannelEventTypes] at h
  unfold ConnectionEvents.try_from_tx
  split <;> simp_all

theorem channelEvents_unknown_type (ev : AbciEvent)
    (h : ev.type_str ∉ recognizedEventTypes) : ChannelEvents.try_from_tx ev = .ok none := by
  simp [recognizedEventTypes, recognizedChannelEventTypes] at h
  unfold ChannelEvents.try_from_tx
  split <;> simp_all

/-- C7: a raw event whose type string is none of the recognised IBC event
type strings decodes to no event, both through the channel-level
`try_from_tx` and the top-level `from_tx_response_event`; and within the
recognised extractors an unrecognised attribute key is ignored — deleting
such a pair from the attribute list leaves both `extract_attributes_from_tx`
and `extract_packet_and_write_ack_from_tx` unchanged. -/
theorem unknown_event_types_yield_none (ev : AbciEvent) (hgt : Height)
    (h : ev.type_str ∉ recognizedEventTypes) (k v : String)
    (hk1 : k ∉ recognizedChannelAttrKeys) (hk2 : k ∉ recognizedPacketAttrKeys) :
    ChannelEvents.try_from_tx ev = .ok none ∧
    from_tx_response_event hgt ev = .ok none ∧
    (∀ (e : AbciEvent) (l1 l2 : List (String × String)),
      e.attributes = l1 ++ (k, v) :: l2 →
      extract_attributes_from_tx e = extract_attributes_from_tx ⟨e.type_str, l1 ++ l2⟩) ∧
    (∀ (e : AbciEvent) (l1 l2 : List (String × String)),
      e.attributes = l1 ++ (k, v) :: l2 →
      extract_packet_and_write_ack_from_tx e =
        extract_packet_and_write_ack_from_tx ⟨e.type_str, l1 ++ l2⟩) := by
  refine ⟨channelEvents_unknown_type ev h, ?_, ?_, ?_⟩
  · unfold from_tx_response_event
    rw [clientEvents_unknown_type ev h, connectionEvents_unknown_type ev h]
    simp [channelEvents_unknown_type ev h, Bind.bind, Except.bind]
  · intro e l1 l2 he
    unfold extract_attributes_from_tx
    rw [he]
    simp [List.foldl_append, applyChannelAttr_unrecognized _ _ _ hk1]
  · intro e l1 l2 he
    unfold extract_packet_and_write_ack_from_tx
    rw [he]
    simp only [List.foldlM_append, List.foldlM_cons,
      applyPacketAttr_unrecognized _ _ _ hk2]
    cases List.foldlM applyPacketAttr (Packet.default, none) l1 <;>
      simp [Bind.bind, Except.bind]

/-- Witness for `unknown_event_types_yield_none`: the type string
`bogus_type` decodes to no event, and the unrecognised attribute key
`weird` leaves the channel-attribute extraction unchanged. -/
theorem unknown_event_types_yield_none_witness :
    ChannelEvents.try_from_tx ⟨"bogus_type", [("weird", "1")]⟩ = .ok none ∧
    from_tx_response_event ⟨0, 9⟩ ⟨"bogus_type", [("weird", "1")]⟩ = .ok none ∧
    extract_attributes_from_tx ⟨"channel_open_init", [("weird", "1")]⟩ =
      extract_attributes_from_tx ⟨"channel_open_init", []⟩ := by
  have h := unknown_event_types_yield_none ⟨"bogus_type", [("weird", "1")]⟩ ⟨0, 9⟩
    (by decide) "weird" "1" (by decide) (by decide)
  exact ⟨h.1, h.2.1, h.2.2.1 ⟨"channel_open_init", [("weird", "1")]⟩ [] [] rfl⟩

/-- C9, counterexample: the claim lists only `Empty` and `ChainError` as
the variants on which `IbcEvent::set_height` panics and asserts it is
total on every other variant — but the source's `set_height` match has no
`TimeoutOnClosePacket` arm either, so that variant also falls into
`unimplemented!()` (embedded as `none`). -/
theorem set_height_panics_on_timeout_on_close :
    IbcEvent.set_height
      (.TimeoutOnClosePacket ⟨Height.default, Packet.default⟩) ⟨0, 9⟩ = none := rfl

/-- C9, amended: `IbcEvent::height` panics exactly on `Empty`,
`ChainError`, `UpgradeClient` and `TimeoutOnClosePacket`;
`IbcEvent::set_height` panics exactly on `Empty`, `ChainError` and
`TimeoutOnClosePacket`; on every variant where `height` is total both
functions are total, and setting then reading the height returns the
height that was set. -/
theorem height_accessors_partiality (ev : IbcEvent) (hgt : Height) :
    (ev.height.isNone = heightPanicVariant ev) ∧
    ((ev.set_height hgt).isNone = setHeightPanicVariant ev) ∧
    (heightPanicVariant ev = false →
      (ev.set_height hgt).bind IbcEvent.height = some hgt) := by
  cases ev <;>
    simp [IbcEvent.height, IbcEvent.set_height, heightPanicVariant,
      setHeightPanicVariant, Option.bind]

/-- Witness for `height_accessors_partiality`: on a `SendPacket` event,
setting the height to `(0,4)` and reading it back yields `(0,4)`. -/
theorem height_accessors_partiality_witness :
    (IbcEvent.set_height (.SendPacket ⟨Height.default, Packet.default⟩) ⟨0, 4⟩).bind
      IbcEvent.height = some ⟨0, 4⟩ :=
  (height_accessors_partiality (.SendPacket ⟨Height.default, Packet.default⟩)
    ⟨0, 4⟩).2.2 rfl

theorem packet_try_from_data_empty (obj : RawObject) (p : Packet)
    (h : Packet.try_from obj = .ok p) : p.data = [] := by
  unfold Packet.try_from at h
  simp only [Bind.bind, Except.bind] at h
  repeat' split at h
  all_goals simp_all
  exact h.symm ▸ rfl

/-- C10: `Packet::try_from(RawObject)` always sets the decoded packet's
`data` to the empty byte vector — the `packet_data` attribute is never
read there — so every `AcknowledgePacket` and `TimeoutPacket` decoded
from a `RawObject` carries a packet with empty data, while `SendPacket`,
`ReceivePacket` and `WriteAcknowledgement` overwrite `data` with the
bytes of the `packet_data` attribute after the conversion. -/
theorem raw_packet_data_empty (obj : RawObject) :
    (∀ p, Packet.try_from obj = .ok p → p.data = []) ∧
    (∀ ev, AcknowledgePacket.try_from obj = .ok ev → ev.packet.data = []) ∧
    (∀ ev, TimeoutPacket.try_from obj = .ok ev → ev.packet.data = []) ∧
    (∀ ev s, SendPacket.try_from obj = .ok ev →
      p_attribute_raw obj "packet_data" = .ok s → ev.packet.data = strBytes s) ∧
    (∀ ev s, ReceivePacket.try_from obj = .ok ev →
      p_attribute_raw obj "packet_data" = .ok s → ev.packet.data = strBytes s) ∧
    (∀ ev s, WriteAcknowledgement.try_from obj = .ok ev →
      p_attribute_raw obj "packet_data" = .ok s → ev.packet.data = strBytes s) := by
  refine ⟨packet_try_from_data_empty obj, ?_, ?_, ?_, ?_, ?_⟩
  · intro ev h
    unfold AcknowledgePacket.try_from at h
    simp only [Bind.bind, Except.bind] at h
    split at h
    · simp at h
    next p heq =>
      simp only [Except.ok.injEq] at h
      rw [← h]
      exact packet_try_from_data_empty obj p heq
  · intro ev h
    unfold TimeoutPacket.try_from at h
    simp only [Bind.bind, Except.bind] at h
    split at h
    · simp at h
    next p heq =>
      simp only [Except.ok.injEq] at h
      rw [← h]
      exact packet_try_from_data_empty obj p heq
  · intro ev s h hs
    unfold SendPacket.try_from at h
    rw [hs] at h
    simp only [Bind.bind, Except.bind] at h
    split at h
    · simp at h
    next p heq =>
      simp only [Except.ok.injEq] at h
      rw [← h]
  · intro ev s h hs
    unfold ReceivePacket.try_from at h
    rw [hs] at h
    simp only [Bind.bind, Except.bind] at h
    split at h
    · simp at h
    next p heq =>
      simp only [Except.ok.injEq] at h
      rw [← h]
  · intro ev s h hs
    unfold WriteAcknowledgement.try_from at h
    rw [hs] at h
    simp only [Bind.bind, Except.bind] at h
    split at h
    · simp at h
    split at h
    · simp at h
    next p heq =>
      simp only [Except.ok.injEq] at h
      rw [← h]

/-- Witness for `raw_packet_data_empty`: the concrete raw object for an
`acknowledge_packet` action decodes to a packet with empty data even
though its attribute list carries `packet_data = "hi"`, while the same
attributes under `send_packet` put the bytes of `"hi"` into the
packet. -/
theorem raw_packet_data_empty_witness :
    (∃ ev, AcknowledgePacket.try_from (testRawObjectFor "acknowledge_packet") = .ok ev ∧
      ev.packet.data = []) ∧
    (∃ ev, SendPacket.try_from (testRawObjectFor "send_packet") = .ok ev ∧
      ev.packet.data = strBytes "hi") := by
  constructor
  · exact ⟨⟨⟨0, 3⟩, ⟨1, "pa", "ca", "pb", "cb", [], ⟨0, 5⟩, 7⟩⟩, rfl,
      (raw_packet_data_empty (testRawObjectFor "acknowledge_packet")).2.1
        ⟨⟨0, 3⟩, ⟨1, "pa", "ca", "pb", "cb", [], ⟨0, 5⟩, 7⟩⟩ rfl⟩
  · exact ⟨⟨⟨0, 3⟩, ⟨1, "pa", "ca", "pb", "cb", strBytes "hi", ⟨0, 5⟩, 7⟩⟩, rfl,
      (raw_packet_data_empty (testRawObjectFor "send_packet")).2.2.2.1
        ⟨⟨0, 3⟩, ⟨1, "pa", "ca", "pb", "cb", strBytes "hi", ⟨0, 5⟩, 7⟩⟩ "hi" rfl rfl⟩

/-- C8: once the two chain runtimes spawn, `start` with both
`src_port_id` and `src_channel_id` runs exactly one `channel_relay`
invocation on that port and channel; with neither it invokes
`relay_on_new_link` on the first matching configured connection path;
with exactly one of the two it invokes no relay and exits with a failure
diagnostic (non-zero exit). -/
theorem start_cmd_dispatch (env : CliEnv) (cmd : StartCmd)
    (hspawn : env.spawn cmd.src_chain_id cmd.dst_chain_id = .ok ()) :
    (∀ p c, cmd.src_port_id = some p → cmd.src_channel_id = some c →
      (StartCmd.run env cmd).2 = [.channel_relay ⟨p, c⟩]) ∧
    (∀ conn path, cmd.src_port_id = none → cmd.src_channel_id = none →
      env.first_matching_path cmd.src_chain_id cmd.dst_chain_id = some (conn, path) →
      (StartCmd.run env cmd).2 = [.relay_on_new_link conn.delay path.ordering path]) ∧
    (cmd.src_port_id.isSome ≠ cmd.src_channel_id.isSome →
      ∃ d, StartCmd.run env cmd = (.failure d, [])) := by
  refine ⟨?_, ?_, ?_⟩
  · intro p c hp hc
    unfold StartCmd.run
    rw [hspawn, hp, hc]
  · intro conn path hp hc hf
    unfold StartCmd.run
    rw [hspawn, hp, hc]
    dsimp only
    rw [hf]
  · intro hmix
    unfold StartCmd.run
    rw [hspawn]
    cases hp : cmd.src_port_id <;> cases hc : cmd.src_channel_id <;>
      rw [hp, hc] at hmix <;> simp at hmix <;> exact ⟨_, rfl⟩

/-- Witness for `start_cmd_dispatch`: with both identifiers the fixture
environment runs one `channel_relay` on them; with only the port given
the command exits with a failure diagnostic and runs no relay. -/
theorem start_cmd_dispatch_witness :
    (StartCmd.run testCliEnv ⟨"chain-A", "chain-B", some "transfer", some "channel-0"⟩).2 =
      [.channel_relay ⟨"transfer", "channel-0"⟩] ∧
    ∃ d, StartCmd.run testCliEnv ⟨"chain-A", "chain-B", some "transfer", none⟩ =
      (.failure d, []) :=
  ⟨(start_cmd_dispatch testCliEnv
        ⟨"chain-A", "chain-B", some "transfer", some "channel-0"⟩ rfl).1
      "transfer" "channel-0" rfl rfl,
    (start_cmd_dispatch testCliEnv
        ⟨"chain-A", "chain-B", some "transfer", none⟩ rfl).2.2 (by decide)⟩

end Ibc
